import Mathlib

/-!
Verification development for the cdapython client library.

This file gives a shallow embedding, in Lean, of the filter-string parser,
query-tree builder and API-result handling logic shared by `summary_counts()`
(cdapython/explore.py) and `fetch_rows()` (cdapython/fetch.py), together with
theorems checking the natural-language description of that logic.

Modelling conventions:
  * Python strings are modelled as `List Char` (`Str` below); Python `.lower()`
    is `Char.toLower` mapped over the list (they agree on ASCII, which is all
    the code's own literals use).
  * The regex operations used by the source are all anchored substitutions on
    maximal runs at the ends of a string (`^['\x22]+`, `^\*+`, `\*+$`, `^\s+`,
    `\s+$`) or simple whole-string tests; each is modelled directly by a list
    function.  `$` is modelled as end-of-string (values carrying a trailing
    newline are out of scope).
  * A filter string has already passed the source's format check
    `^\S+\s+\S+\s+\S.*$` and been split by the source's field-extraction
    regexes into its COLUMN, OP and VALUE fields; a filter is therefore a
    triple of those fields.
  * The `columns( column=name )` metadata lookup performed for each filter is
    modelled as a function `Str → Option Str` giving the declared data type of
    the unique matching column (`none` when the number of matches is not 1).
  * `print(..., file=sys.stderr)` followed by `return` (returning `None`) is
    modelled as `Except`/`Option` results plus an explicit list of emitted
    stderr lines where the claims need it.
-/

namespace Cda

/-- Python strings, modelled as lists of characters. -/
abbrev Str := List Char

/-- The single-quote character (written via its code point to keep the text plain). -/
def squote : Char := Char.ofNat 39

/-- The double-quote character. -/
def dquote : Char := Char.ofNat 34

/-- Characters matched by the Python regex class `\s` (ASCII range). -/
def isPySpace (c : Char) : Bool :=
  c == ' ' || c == '\t' || c == '\n' || c == '\r' || c == '\x0b' || c == '\x0c'

/-- Python `str.lower()` (ASCII behaviour). -/
def strLower (s : Str) : Str := s.map Char.toLower

/-- `re.sub( r"^['\x22]+", r'', s )`: drop every leading quote character. -/
def stripLeadingQuotes (s : Str) : Str :=
  s.dropWhile (fun c => c == squote || c == dquote)

/-- `re.sub( r"['\x22]+$", r'', s )`: drop every trailing quote character. -/
def stripTrailingQuotes (s : Str) : Str :=
  (s.reverse.dropWhile (fun c => c == squote || c == dquote)).reverse

/-- The two quote-stripping substitutions applied in source order. -/
def stripQuotes (s : Str) : Str := stripTrailingQuotes (stripLeadingQuotes s)

/-- `re.sub( r'^\s+', r'', ... )` then `re.sub( r'\s+$', r'', ... )`. -/
def stripPySpaces (s : Str) : Str :=
  ((s.dropWhile isPySpace).reverse.dropWhile isPySpace).reverse

/-- `re.sub( r'^\*+', r'%', s )`: replace a leading run of asterisks with one percent sign. -/
def subLeadingStars (s : Str) : Str :=
  if s.head? = some '*' then '%' :: s.dropWhile (fun c => c == '*') else s

/-- `re.sub( r'\*+$', r'%', s )`: replace a trailing run of asterisks with one percent sign. -/
def subTrailingStars (s : Str) : Str :=
  (subLeadingStars s.reverse).reverse

/-- `re.search( r'^[-+]?\d+(\.\d+)?$', s ) is not None` (ASCII digits). -/
def isPyNumber (s : Str) : Bool :=
  let t := match s with
    | c :: rest => if c == '-' || c == '+' then rest else c :: rest
    | [] => []
  let intPart := t.takeWhile Char.isDigit
  let rest := t.dropWhile Char.isDigit
  !intPart.isEmpty &&
    (rest.isEmpty ||
      (rest.head? == some '.' && !rest.tail.isEmpty && rest.tail.all Char.isDigit))

/-- The `boolean_alias` dictionary: maps ways to say true/false to canonical forms. -/
def boolean_alias (s : Str) : Option Str :=
  if s = "true".data ∨ s = "t".data then some "true".data
  else if s = "false".data ∨ s = "f".data then some "false".data
  else none

/-- The `allowed_operators` set of supported filter-string operators. -/
def allowed_operators : List Str :=
  [ ">".data, ">=".data, "<".data, "<=".data, "=".data, "!=".data ]

/-- The operator set `{ '=', '!=' }` used for boolean and text columns. -/
def equality_operators : List Str := [ "=".data, "!=".data ]

/-- The four order-comparison operators. -/
def inequality_operators : List Str :=
  [ "<".data, "<=".data, ">".data, ">=".data ]

/-- The keys of the `operators_by_data_type` dictionary: every declared CDA data type. -/
def declared_data_types : List Str :=
  [ "bigint".data, "boolean".data, "integer".data, "numeric".data, "text".data ]

/-- The `operators_by_data_type` dictionary; `none` models a `KeyError` on an
unknown data type. -/
def operators_by_data_type (dt : Str) : Option (List Str) :=
  if dt = "bigint".data then some allowed_operators
  else if dt = "boolean".data then some equality_operators
  else if dt = "integer".data then some allowed_operators
  else if dt = "numeric".data then some allowed_operators
  else if dt = "text".data then some equality_operators
  else none

/-- The `Query` objects of the generated SDK as the source populates them:
`node_type` is always set; `value`, `l` and `r` are set only where the source
assigns them.  A child the source leaves unset (Python `None`) is the
constructor `Query.null`. -/
inductive Query : Type where
  | null
  | mk (node_type : Str) (value : Option Str) (l : Query) (r : Query)
deriving DecidableEq, Repr

/-- The distinct print-an-error-and-return-None exits of the filter-parsing
loops (one constructor per distinct error message), plus `typeKeyError` for
the uncaught `KeyError` a data type outside `operators_by_data_type` would
raise. -/
inductive ParseErr : Type where
  | notSearchableColumn
  | unsupportedOperator
  | operatorNotUsableForType
  | typeKeyError
  | notBooleanValue
  | notNumberValue
  | embeddedWildcard
  | unanticipatedDataType
  | nullNeedsEqualityOperator
  | invalidDataSource
deriving DecidableEq, Repr

/-- Operator extraction step: `if filter_operator == '==': filter_operator = '='
elif filter_operator not in allowed_operators: <error>`. -/
def resolve_operator (op0 : Str) : Except ParseErr Str :=
  if op0 = "==".data then Except.ok "=".data
  else if op0 ∈ allowed_operators then Except.ok op0
  else Except.error ParseErr.unsupportedOperator

/-- The VALUE-validation and wildcard-processing block of the filter-parsing
loop (the body of `if filter_value.lower() != 'null':`), returning the
possibly rewritten operator and value. -/
def validate_value (target_data_type op v : Str) : Except ParseErr (Str × Str) :=
  if strLower v = "null".data then Except.ok (op, v)
  else if target_data_type = "boolean".data then
    match boolean_alias (strLower v) with
    | some b => Except.ok (op, b)
    | none => Except.error ParseErr.notBooleanValue
  else if target_data_type = "bigint".data ∨ target_data_type = "integer".data ∨
      target_data_type = "numeric".data then
    if isPyNumber v then Except.ok (op, v) else Except.error ParseErr.notNumberValue
  else if target_data_type = "text".data then
    if v.head? = some '*' ∨ v.getLast? = some '*' then
      let w := subTrailingStars (subLeadingStars v)
      let opw := if op = "!=".data then "NOT LIKE".data else "LIKE".data
      if '*' ∈ w then Except.error ParseErr.embeddedWildcard else Except.ok (opw, w)
    else
      if '*' ∈ v then Except.error ParseErr.embeddedWildcard else Except.ok (op, v)
  else Except.error ParseErr.unanticipatedDataType

/-- The `filter_query = Query()` construction block at the end of the
filter-parsing loop, including the NULL special case. -/
def build_filter_query (target_data_type colName op v : Str) : Except ParseErr Query :=
  let lnode := Query.mk "column".data (some colName) Query.null Query.null
  if strLower v = "null".data then
    let rnode := Query.mk "unquoted".data (some "NULL".data) Query.null Query.null
    if op = "=".data then Except.ok (Query.mk "IS".data none lnode rnode)
    else if op = "!=".data then Except.ok (Query.mk "IS NOT".data none lnode rnode)
    else Except.error ParseErr.nullNeedsEqualityOperator
  else
    let rtype := if target_data_type = "text".data then "quoted".data else "unquoted".data
    Except.ok (Query.mk op none lnode (Query.mk rtype (some v) Query.null Query.null))

/-- One iteration of the filter-parsing loop shared (verbatim, up to the
function name in error messages) by `summary_counts()` and `fetch_rows()`:
given the column-metadata lookup and the COLUMN, OP and VALUE fields of one
filter string, produce its `Query` object or the error on which the function
prints a message and returns `None`. -/
def parse_filter (lookup : Str → Option Str) (colRaw op0 val0 : Str) :
    Except ParseErr Query :=
  let filter_column_name := strLower colRaw
  match lookup filter_column_name with
  | none => Except.error ParseErr.notSearchableColumn
  | some target_data_type =>
    match resolve_operator op0 with
    | Except.error e => Except.error e
    | Except.ok op1 =>
      match operators_by_data_type target_data_type with
      | none => Except.error ParseErr.typeKeyError
      | some ops =>
        if op1 ∈ ops then
          let v1 := stripQuotes val0
          let v2 := if target_data_type ≠ "text".data then stripPySpaces v1 else v1
          match validate_value target_data_type op1 v2 with
          | Except.error e => Except.error e
          | Except.ok (op2, v3) => build_filter_query target_data_type filter_column_name op2 v3
        else Except.error ParseErr.operatorNotUsableForType

/-- The filter-parsing loop over a whole `match_all` or `match_any` list
(first error wins, as the source returns from inside the loop). -/
def parse_filters (lookup : Str → Option Str) :
    List (Str × Str × Str) → Except ParseErr (List Query)
  | [] => Except.ok []
  | (c, o, v) :: rest =>
    match parse_filter lookup c o v with
    | Except.error e => Except.error e
    | Except.ok q =>
      match parse_filters lookup rest with
      | Except.error e => Except.error e
      | Except.ok qs => Except.ok (q :: qs)

/-- The "combine all filter queries into one big conj-linked query" block:
none for an empty group, the single query for a singleton, and otherwise the
loop `for i in range( 2, len ):` that repeatedly makes the accumulated tree
the left child of a new `conj` node. -/
def combine_queries (conj : Str) : List Query → Option Query
  | [] => none
  | [q] => some q
  | q0 :: q1 :: rest =>
    some (rest.foldl (fun acc q => Query.mk conj none acc q)
      (Query.mk conj none q0 q1))

/-- Modelled from the spec: "fold a list of such nodes pairwise into a
left-leaning AND-tree (for `match_all`) or OR-tree (for `match_any`)" — the
left fold of the per-filter nodes under binary `conj` nodes. -/
def leftLeanTree (conj : Str) : List Query → Option Query
  | [] => none
  | q :: rest => some (rest.foldl (fun acc q2 => Query.mk conj none acc q2) q)

/-- The hard-coded `allowed_data_source_values` set. -/
def allowed_data_source_values : List Str :=
  [ "gdc".data, "pdc".data, "idc".data, "cds".data, "icdc".data ]

/-- `re.sub( r'\s+', r'', item ).lower()` applied to each data_source entry. -/
def normalize_data_source (s : Str) : Str :=
  strLower (s.filter (fun c => !(isPySpace c)))

/-- The per-entry `data_source` query built by `summary_counts()`:
`{table}_from_{item} = true`. -/
def data_source_query_sc (table item : Str) : Query :=
  Query.mk "=".data none
    (Query.mk "column".data (some (table ++ "_from_".data ++ item)) Query.null Query.null)
    (Query.mk "unquoted".data (some "true".data) Query.null Query.null)

/-- The per-entry `data_source` query built by `fetch_rows()`: as in
`summary_counts()` except that for table `somatic_mutation` the column is
`subject_from_{item}`. -/
def data_source_query_fr (table item : Str) : Query :=
  let colname :=
    if table = "somatic_mutation".data then "subject_from_".data ++ item
    else table ++ "_from_".data ++ item
  Query.mk "=".data none
    (Query.mk "column".data (some colname) Query.null Query.null)
    (Query.mk "unquoted".data (some "true".data) Query.null Query.null)

/-- The query built when no filters at all were supplied: `{table}_id IS NOT
NULL`, overwritten for `somatic_mutation` (which has no ID field) by
`hotspot IS NULL OR hotspot IS NOT NULL`. -/
def match_everything_query (table : Str) : Query :=
  if table = "somatic_mutation".data then
    Query.mk "OR".data none
      (Query.mk "IS".data none
        (Query.mk "column".data (some "hotspot".data) Query.null Query.null)
        (Query.mk "unquoted".data (some "NULL".data) Query.null Query.null))
      (Query.mk "IS NOT".data none
        (Query.mk "column".data (some "hotspot".data) Query.null Query.null)
        (Query.mk "unquoted".data (some "NULL".data) Query.null Query.null))
  else
    Query.mk "IS NOT".data none
      (Query.mk "column".data (some (table ++ "_id".data)) Query.null Query.null)
      (Query.mk "unquoted".data (some "NULL".data) Query.null Query.null)

/-- The "combine all the filters we've processed" block: the final query as a
function of the three (possibly absent) combined group trees. -/
def build_final_query (table : Str) (a o d : Option Query) : Query :=
  match a, o, d with
  | none, none, none => match_everything_query table
  | some qa, none, none => qa
  | none, some qo, none => qo
  | some qa, some qo, none => Query.mk "AND".data none qa qo
  | none, none, some qd => qd
  | some qa, none, some qd => Query.mk "AND".data none qd qa
  | none, some qo, some qd => Query.mk "AND".data none qd qo
  | some qa, some qo, some qd =>
    Query.mk "AND".data none (Query.mk "AND".data none qa qo) qd

/-- The full query-building pipeline of `summary_counts()`: data_source
normalization and validation, parsing of both filter groups, per-group
combination and the final join. -/
def build_query_sc (lookup : Str → Option Str) (table : Str)
    (match_all match_any : List (Str × Str × Str)) (data_source : List Str) :
    Except ParseErr Query :=
  let ds := data_source.map normalize_data_source
  if ds.all (fun item => decide (item ∈ allowed_data_source_values)) then
    match parse_filters lookup match_all with
    | Except.error e => Except.error e
    | Except.ok qsAll =>
      match parse_filters lookup match_any with
      | Except.error e => Except.error e
      | Except.ok qsAny =>
        let qsDS := ds.map (data_source_query_sc table)
        Except.ok (build_final_query table
          (combine_queries "AND".data qsAll)
          (combine_queries "OR".data qsAny)
          (combine_queries "AND".data qsDS))
  else Except.error ParseErr.invalidDataSource

/-- The full query-building pipeline of `fetch_rows()`; identical to
`summary_counts()` except for the `data_source` column naming. -/
def build_query_fr (lookup : Str → Option Str) (table : Str)
    (match_all match_any : List (Str × Str × Str)) (data_source : List Str) :
    Except ParseErr Query :=
  let ds := data_source.map normalize_data_source
  if ds.all (fun item => decide (item ∈ allowed_data_source_values)) then
    match parse_filters lookup match_all with
    | Except.error e => Except.error e
    | Except.ok qsAll =>
      match parse_filters lookup match_any with
      | Except.error e => Except.error e
      | Except.ok qsAny =>
        let qsDS := ds.map (data_source_query_fr table)
        Except.ok (build_final_query table
          (combine_queries "AND".data qsAll)
          (combine_queries "OR".data qsAny)
          (combine_queries "AND".data qsDS))
  else Except.error ParseErr.invalidDataSource

/-- An outcome of `paged_response_data_object.get()` whose `ApiException`
body, when not `None`, has already been JSON-decoded to its `message` field.
This is the image of a `RawApiOutcome` under `RawApiOutcome.decodeWith` when
that decoding succeeds (see `handle_api_result_raw_eq_of_decodes`); phases
whose claims never touch the body-decoding step (`summary_counts_fetch_phase`
and `fetch_rows_count_only_result`) are stated over it. -/
inductive ApiOutcome (α : Type) : Type where
  | success (result : α)
  | apiException (body_message : Option Str) (exception_text : Str)
  | connectionException (exception_type_text : Str)

/-- One line printed to `sys.stderr` by the API-failure handlers (one
constructor per distinct print statement shape). -/
inductive StderrLine : Type where
  | apiError (fname : Str) (error_message : Str)
  | cannotConnect (fname : Str)
  | connectOther (fname : Str) (exception_type_text : Str)
  | somaticMutationCountsUnavailable
deriving DecidableEq, Repr

/-- The `try: ... .get() except ApiException ... except BaseException ...`
block on an already-decoded `ApiOutcome`: the value the surrounding function
continues with (or `none` when it returns) and the stderr lines printed.
The `MaxRetryError` test is
`re.search( 'urllib3.exceptions.MaxRetryError', str( type( e ) ) )`,
modelled as substring containment.  This is the restriction of the faithful
handler `handle_api_result_raw` to outcomes whose body decodes
(`handle_api_result_raw_eq_of_decodes`); it cannot represent the handler
raising out of `json.loads( e.body )['message']`. -/
def handle_api_result {α : Type} (fname : Str) (out : ApiOutcome α) :
    Option α × List StderrLine :=
  match out with
  | ApiOutcome.success a => (some a, [])
  | ApiOutcome.apiException body etext =>
    let error_message := match body with | some m => m | none => etext
    (none, [ StderrLine.apiError fname error_message ])
  | ApiOutcome.connectionException ttext =>
    if "urllib3.exceptions.MaxRetryError".data <:+: ttext then
      (none, [ StderrLine.cannotConnect fname ])
    else
      (none, [ StderrLine.connectOther fname ttext ])

/-- The raw outcome of `paged_response_data_object.get()` on the single
`ApplyResult` each endpoint call produces: a successful result, an
`ApiException` carrying the raw `e.body` (`none` exactly when Python
`e.body is None`) together with `str( e )`, or any other exception carrying
`str( type( e ) )`. -/
inductive RawApiOutcome (α : Type) : Type where
  | success (result : α)
  | apiException (body : Option Str) (exception_text : Str)
  | connectionException (exception_type_text : Str)

/-- What running one of the `except` handlers does to the surrounding
function: continue with a value (`proceed`), print stderr lines and return
`None` (`returned`), or itself raise — the `json.loads( e.body )['message']`
line throws `JSONDecodeError`/`KeyError` on a body that is not a JSON object
with a `message` key — so that the exception escapes to the caller with
nothing printed and no `None` returned (`raised`). -/
inductive HandlerResult (α : Type) : Type where
  | proceed (result : α)
  | returned (stderr_lines : List StderrLine)
  | raised
deriving DecidableEq, Repr

/-- The `try: ... .get() except ApiException ... except BaseException ...`
block shared verbatim (modulo the function name in the messages) by
`columns()`, `column_values()`, `summary_counts()` and `fetch_rows()`,
modelled faithfully on the raw outcome: `decode` stands for the standard
library computation `json.loads( body )['message']`, with `none` meaning
that computation raises (body not valid JSON, or no `message` key), in which
case the handler itself raises. -/
def handle_api_result_raw {α : Type} (decode : Str → Option Str) (fname : Str)
    (out : RawApiOutcome α) : HandlerResult α :=
  match out with
  | RawApiOutcome.success a => HandlerResult.proceed a
  | RawApiOutcome.apiException body etext =>
    match body with
    | some b =>
      match decode b with
      | some error_message =>
        HandlerResult.returned [ StderrLine.apiError fname error_message ]
      | none => HandlerResult.raised
    | none => HandlerResult.returned [ StderrLine.apiError fname etext ]
  | RawApiOutcome.connectionException ttext =>
    if "urllib3.exceptions.MaxRetryError".data <:+: ttext then
      HandlerResult.returned [ StderrLine.cannotConnect fname ]
    else
      HandlerResult.returned [ StderrLine.connectOther fname ttext ]

/-- The faithful API-failure handler as instantiated in `columns()`. -/
def columns_handle_api_result_raw {α : Type} (decode : Str → Option Str)
    (out : RawApiOutcome α) : HandlerResult α :=
  handle_api_result_raw decode "columns".data out

/-- The faithful API-failure handler as instantiated in `column_values()`
(both for the initial request and for each pagination request). -/
def column_values_handle_api_result_raw {α : Type} (decode : Str → Option Str)
    (out : RawApiOutcome α) : HandlerResult α :=
  handle_api_result_raw decode "column_values".data out

/-- The faithful API-failure handler as instantiated in `summary_counts()`. -/
def summary_counts_handle_api_result_raw {α : Type} (decode : Str → Option Str)
    (out : RawApiOutcome α) : HandlerResult α :=
  handle_api_result_raw decode "summary_counts".data out

/-- The faithful API-failure handler as instantiated in `fetch_rows()` (used
for the main request and, under `count_only` with extra columns, for the
extra count request). -/
def fetch_rows_handle_api_result_raw {α : Type} (decode : Str → Option Str)
    (out : RawApiOutcome α) : HandlerResult α :=
  handle_api_result_raw decode "fetch_rows".data out

/-- Decoding a raw outcome into an `ApiOutcome`: succeeds exactly when the
handler's `json.loads( e.body )['message']` step would not raise. -/
def RawApiOutcome.decodeWith {α : Type} (decode : Str → Option Str) :
    RawApiOutcome α → Option (ApiOutcome α)
  | RawApiOutcome.success a => some (ApiOutcome.success a)
  | RawApiOutcome.apiException (some b) etext =>
    (decode b).map (fun m => ApiOutcome.apiException (some m) etext)
  | RawApiOutcome.apiException none etext => some (ApiOutcome.apiException none etext)
  | RawApiOutcome.connectionException t => some (ApiOutcome.connectionException t)

/-- A decode instance on which every body decodes to itself: the happy path
of `json.loads( body )['message']`, used by the witness. -/
def demo_decode : Str → Option Str := fun body => some body

/-- The behaviour of `json.loads( body )['message']` on bodies where that
computation raises — any body that is not a JSON object carrying a `message`
key, such as an HTML error page returned by a gateway: no message is
produced.  Used by the counterexample. -/
def undecodable_json_body_decode : Str → Option Str := fun _ => none

/-- The API-failure handler as instantiated in `summary_counts()`. -/
def summary_counts_handle_api_result {α : Type} (out : ApiOutcome α) :
    Option α × List StderrLine :=
  handle_api_result "summary_counts".data out

/-- The phase of `summary_counts()` between issuing the asynchronous
`{table}_counts_query` request and producing the first page of results: the
`TEMPORARY TRAP` that unconditionally aborts for table `somatic_mutation`
(before the async result is ever retrieved), followed by the shared
API-failure handler. -/
def summary_counts_fetch_phase {α : Type} (table : Str) (out : ApiOutcome α) :
    Option α × List StderrLine :=
  if table = "somatic_mutation".data then
    (none, [ StderrLine.somaticMutationCountsUnavailable ])
  else
    summary_counts_handle_api_result out

/-- The table-name validation step of `summary_counts()`:
`if table not in valid_tables: <error>`, where `valid_tables = tables()` is
the list the API reports. -/
def table_name_is_valid (valid_tables : List Str) (table : Str) : Bool :=
  decide (table ∈ valid_tables)

/-- The keys of the `query_selector` dictionary in `summary_counts()` (the
tables the function is written to serve). -/
def summary_counts_query_selector_tables : List Str :=
  [ "subject".data, "diagnosis".data, "researchsubject".data, "specimen".data,
    "treatment".data, "file".data, "somatic_mutation".data ]

/-- The `count_only` tail of `fetch_rows()`: when an extra-columns SELECT
query was built, a first request (on the query without the extra columns)
supplies `distinct_row_count`; the main request supplies
`total_result_row_count`; when no first request was made,
`distinct_row_count` falls back to the main count; any failed request makes
the function return `None`.  The returned dictionary is modelled as an
association list. -/
def fetch_rows_count_only_result (table : Str) (query_for_extra_columns : Option Query)
    (first_call main_call : ApiOutcome Nat) : Option (List (Str × Nat)) :=
  match query_for_extra_columns with
  | some _ =>
    match first_call with
    | ApiOutcome.success distinct_row_count =>
      match main_call with
      | ApiOutcome.success total_result_row_count =>
        some [ ("distinct_".data ++ table ++ "_rows".data, distinct_row_count),
               ("total_result_rows".data, total_result_row_count) ]
      | _ => none
    | _ => none
  | none =>
    match main_call with
    | ApiOutcome.success total_result_row_count =>
      some [ ("distinct_".data ++ table ++ "_rows".data, total_result_row_count),
             ("total_result_rows".data, total_result_row_count) ]
    | _ => none

/-- A small concrete column-metadata environment used by the witness
theorems: `sex` is a text column and `days_to_birth` an integer column (as
in the real CDA schema). -/
def demo_lookup (s : Str) : Option Str :=
  if s = "sex".data then some "text".data
  else if s = "days_to_birth".data then some "integer".data
  else none

/-- Concrete filter triples used by the witness theorems. -/
def demo_items : List (Str × Str × Str) :=
  [ ("sex".data, "=".data, "F".data), ("sex".data, "=".data, "M".data) ]

/-- The query node `parse_filter` produces for the filter `sex = F`. -/
def demo_q1 : Query :=
  Query.mk "=".data none
    (Query.mk "column".data (some "sex".data) Query.null Query.null)
    (Query.mk "quoted".data (some "F".data) Query.null Query.null)

/-- The query node `parse_filter` produces for the filter `sex = M`. -/
def demo_q2 : Query :=
  Query.mk "=".data none
    (Query.mk "column".data (some "sex".data) Query.null Query.null)
    (Query.mk "quoted".data (some "M".data) Query.null Query.null)

/-! ## Helper lemmas -/

theorem combine_queries_eq_leftLeanTree (conj : Str) :
    ∀ qs : List Query, combine_queries conj qs = leftLeanTree conj qs
  | [] => rfl
  | [_] => rfl
  | _ :: _ :: _ => rfl

theorem leftLeanTree_snoc (conj : Str) (qs : List Query) (q q' : Query)
    (h : leftLeanTree conj qs = some q') :
    leftLeanTree conj (qs ++ [q]) = some (Query.mk conj none q' q) := by
  cases qs with
  | nil => exact absurd h (by simp [leftLeanTree])
  | cons q0 rest =>
    have h' : rest.foldl (fun acc q2 => Query.mk conj none acc q2) q0 = q' := by
      simpa [leftLeanTree] using h
    simp [leftLeanTree, List.foldl_append, h']

theorem parse_filter_double_equals (lookup : Str → Option Str) (colRaw val0 : Str) :
    parse_filter lookup colRaw "==".data val0 = parse_filter lookup colRaw "=".data val0 := by
  unfold parse_filter
  cases lookup (strLower colRaw) with
  | none => rfl
  | some dt => rfl

theorem mem_of_head?_eq {c : Char} {l : Str} (h : l.head? = some c) : c ∈ l := by
  cases l with
  | nil => cases h
  | cons a t => cases h; exact List.mem_cons_self _ _

theorem mem_of_getLast?_eq {c : Char} {l : Str} (h : l.getLast? = some c) : c ∈ l := by
  rw [← List.head?_reverse] at h
  rw [← List.mem_reverse]
  exact mem_of_head?_eq h

theorem strLower_ne_null_of_mem {c : Char} {s : Str} (hmem : c ∈ s)
    (hfix : c.toLower = c) (hnot : c ∉ "null".data) : strLower s ≠ "null".data := by
  intro he
  have h2 : c ∈ strLower s := by
    have h3 := List.mem_map_of_mem Char.toLower hmem
    rwa [hfix] at h3
  rw [he] at h2
  exact hnot h2

theorem percent_mem_subLeadingStars_of_head {v : Str} (h : v.head? = some '*') :
    '%' ∈ subLeadingStars v := by
  unfold subLeadingStars
  rw [if_pos h]
  exact List.mem_cons_self _ _

theorem subLeadingStars_of_head_ne {v : Str} (h : ¬ v.head? = some '*') :
    subLeadingStars v = v := by
  unfold subLeadingStars
  rw [if_neg h]

theorem percent_mem_subTrailingStars {s : Str}
    (h : '%' ∈ s ∨ s.getLast? = some '*') : '%' ∈ subTrailingStars s := by
  unfold subTrailingStars
  rw [List.mem_reverse]
  by_cases hh : s.reverse.head? = some '*'
  · exact percent_mem_subLeadingStars_of_head hh
  · rw [subLeadingStars_of_head_ne hh, List.mem_reverse]
    rcases h with hp | hl
    · exact hp
    · rw [List.head?_reverse] at hh
      exact absurd hl hh

theorem percent_mem_wildcard_value {v : Str}
    (h : v.head? = some '*' ∨ v.getLast? = some '*') :
    '%' ∈ subTrailingStars (subLeadingStars v) := by
  by_cases hh : v.head? = some '*'
  · exact percent_mem_subTrailingStars (Or.inl (percent_mem_subLeadingStars_of_head hh))
  · rcases h with h1 | h2
    · exact absurd h1 hh
    · rw [subLeadingStars_of_head_ne hh]
      exact percent_mem_subTrailingStars (Or.inr h2)

theorem parse_filter_eq_error_of_validate (lookup : Str → Option Str)
    (colRaw op0 val0 dt op1 : Str) (ops : List Str) (e : ParseErr)
    (hcol : lookup (strLower colRaw) = some dt)
    (hres : resolve_operator op0 = Except.ok op1)
    (hops : operators_by_data_type dt = some ops)
    (hmem : op1 ∈ ops)
    (hv : validate_value dt op1
      (if dt ≠ "text".data then stripPySpaces (stripQuotes val0) else stripQuotes val0) =
      Except.error e) :
    parse_filter lookup colRaw op0 val0 = Except.error e := by
  simp only [parse_filter, hcol, hres, hops]
  rw [if_pos hmem, hv]

theorem parse_filter_eq_build_of_validate (lookup : Str → Option Str)
    (colRaw op0 val0 dt op1 op2 v3 : Str) (ops : List Str)
    (hcol : lookup (strLower colRaw) = some dt)
    (hres : resolve_operator op0 = Except.ok op1)
    (hops : operators_by_data_type dt = some ops)
    (hmem : op1 ∈ ops)
    (hv : validate_value dt op1
      (if dt ≠ "text".data then stripPySpaces (stripQuotes val0) else stripQuotes val0) =
      Except.ok (op2, v3)) :
    parse_filter lookup colRaw op0 val0 =
      build_filter_query dt (strLower colRaw) op2 v3 := by
  simp only [parse_filter, hcol, hres, hops]
  rw [if_pos hmem, hv]

theorem isPySpace_eq_false_of_toLower_mem {c : Char} (h : c.toLower ∈ "null".data) :
    isPySpace c = false := by
  by_contra hc
  rw [Bool.not_eq_false] at hc
  simp only [isPySpace, Bool.or_eq_true, beq_iff_eq] at hc
  rcases hc with ((((h1 | h1) | h1) | h1) | h1) | h1 <;> subst h1 <;>
    exact absurd h (by decide)

theorem all_not_space_of_strLower_null {v : Str} (h : strLower v = "null".data) :
    ∀ c ∈ v, isPySpace c = false := by
  intro c hc
  apply isPySpace_eq_false_of_toLower_mem
  rw [← h]
  exact List.mem_map_of_mem Char.toLower hc

theorem dropWhile_isPySpace_eq_self {v : Str} (h : ∀ c ∈ v, isPySpace c = false) :
    v.dropWhile isPySpace = v := by
  cases v with
  | nil => rfl
  | cons a t =>
    rw [List.dropWhile_cons, if_neg (by simp [h a (List.mem_cons_self _ _)])]

theorem stripPySpaces_eq_self {v : Str} (h : ∀ c ∈ v, isPySpace c = false) :
    stripPySpaces v = v := by
  unfold stripPySpaces
  rw [dropWhile_isPySpace_eq_self h,
    dropWhile_isPySpace_eq_self (fun c hc => h c (List.mem_reverse.mp hc)),
    List.reverse_reverse]

theorem validate_value_null (dt op v : Str) (h : strLower v = "null".data) :
    validate_value dt op v = Except.ok (op, v) := by
  unfold validate_value
  rw [if_pos h]

theorem build_filter_query_null (dt c op v : Str) (h : strLower v = "null".data) :
    (op = "=".data → build_filter_query dt c op v = Except.ok (Query.mk "IS".data none
      (Query.mk "column".data (some c) Query.null Query.null)
      (Query.mk "unquoted".data (some "NULL".data) Query.null Query.null))) ∧
    (op = "!=".data → build_filter_query dt c op v = Except.ok (Query.mk "IS NOT".data none
      (Query.mk "column".data (some c) Query.null Query.null)
      (Query.mk "unquoted".data (some "NULL".data) Query.null Query.null))) ∧
    (op ≠ "=".data → op ≠ "!=".data →
      build_filter_query dt c op v = Except.error ParseErr.nullNeedsEqualityOperator) := by
  refine ⟨?_, ?_, ?_⟩
  · rintro rfl
    simp only [build_filter_query]
    rw [if_pos h, if_pos trivial]
  · rintro rfl
    simp only [build_filter_query]
    rw [if_pos h, if_neg (by decide), if_pos trivial]
  · intro h1 h2
    simp only [build_filter_query]
    rw [if_pos h, if_neg h1, if_neg h2]

theorem parse_filter_eq_of_resolve_error (lookup : Str → Option Str)
    (colRaw op0 val0 dt : Str) (e : ParseErr)
    (hcol : lookup (strLower colRaw) = some dt)
    (hres : resolve_operator op0 = Except.error e) :
    parse_filter lookup colRaw op0 val0 = Except.error e := by
  simp only [parse_filter, hcol, hres]

theorem parse_filter_eq_of_not_mem (lookup : Str → Option Str)
    (colRaw op0 val0 dt op1 : Str) (ops : List Str)
    (hcol : lookup (strLower colRaw) = some dt)
    (hres : resolve_operator op0 = Except.ok op1)
    (hops : operators_by_data_type dt = some ops)
    (hnm : op1 ∉ ops) :
    parse_filter lookup colRaw op0 val0 = Except.error ParseErr.operatorNotUsableForType := by
  simp only [parse_filter, hcol, hres, hops]
  rw [if_neg hnm]

theorem operators_exist_of_declared {dt : Str} (hdt : dt ∈ declared_data_types) :
    ∃ ops : List Str, operators_by_data_type dt = some ops ∧
      "=".data ∈ ops ∧ "!=".data ∈ ops := by
  simp only [declared_data_types, List.mem_cons, List.mem_singleton,
    List.not_mem_nil, or_false] at hdt
  rcases hdt with rfl | rfl | rfl | rfl | rfl <;>
    exact ⟨_, rfl, by decide, by decide⟩

theorem resolve_operator_ok_of_mem {op0 : Str} (hne : op0 ≠ "==".data)
    (hmem : op0 ∈ allowed_operators) : resolve_operator op0 = Except.ok op0 := by
  unfold resolve_operator
  rw [if_neg hne, if_pos hmem]

theorem resolve_operator_error_of_not_mem {op0 : Str} (hne : op0 ≠ "==".data)
    (hmem : op0 ∉ allowed_operators) :
    resolve_operator op0 = Except.error ParseErr.unsupportedOperator := by
  unfold resolve_operator
  rw [if_neg hne, if_neg hmem]

theorem validate_value_text_wildcard (op1 v : Str)
    (hstar : v.head? = some '*' ∨ v.getLast? = some '*') :
    (('*' ∈ subTrailingStars (subLeadingStars v)) →
      validate_value "text".data op1 v = Except.error ParseErr.embeddedWildcard) ∧
    ('*' ∉ subTrailingStars (subLeadingStars v) →
      validate_value "text".data op1 v =
        Except.ok ((if op1 = "!=".data then "NOT LIKE".data else "LIKE".data),
          subTrailingStars (subLeadingStars v))) := by
  have hnn : ¬ strLower v = "null".data := by
    rcases hstar with h | h
    · exact strLower_ne_null_of_mem (mem_of_head?_eq h) (by decide) (by decide)
    · exact strLower_ne_null_of_mem (mem_of_getLast?_eq h) (by decide) (by decide)
  constructor <;> intro hw <;>
  · simp only [validate_value]
    rw [if_neg hnn, if_pos trivial, if_pos hstar]
    first
      | rw [if_pos hw]
      | rw [if_neg hw]
    rw [if_neg (by decide), if_neg (by decide)]

theorem build_filter_query_text_nonnull (c op v : Str)
    (hnn : strLower v ≠ "null".data) :
    build_filter_query "text".data c op v =
      Except.ok (Query.mk op none
        (Query.mk "column".data (some c) Query.null Query.null)
        (Query.mk "quoted".data (some v) Query.null Query.null)) := by
  simp only [build_filter_query]
  rw [if_neg hnn, if_pos trivial]

/-! ## Claim theorems -/

/-- C1: in `summary_counts()` and `fetch_rows()`, a list of two or more
successfully parsed `match_all` filters is combined into the left fold of
the per-filter query nodes under binary AND nodes (each further filter
becomes the right child of a new node whose left child is the combination so
far), and likewise `match_any` under OR; a singleton list yields its node
unchanged and an empty list yields no tree. -/
theorem match_group_combination_is_left_fold
    (lookup : Str → Option Str) (items : List (Str × Str × Str)) (qs : List Query)
    (hparse : parse_filters lookup items = Except.ok qs) :
    combine_queries "AND".data qs = leftLeanTree "AND".data qs ∧
    combine_queries "OR".data qs = leftLeanTree "OR".data qs ∧
    (qs = [] → combine_queries "AND".data qs = none ∧ combine_queries "OR".data qs = none) ∧
    (∀ q : Query, qs = [q] →
      combine_queries "AND".data qs = some q ∧ combine_queries "OR".data qs = some q) ∧
    (∀ (front : List Query) (q q' : Query), qs = front ++ [q] →
      combine_queries "AND".data front = some q' →
      combine_queries "AND".data qs = some (Query.mk "AND".data none q' q)) ∧
    (∀ (front : List Query) (q q' : Query), qs = front ++ [q] →
      combine_queries "OR".data front = some q' →
      combine_queries "OR".data qs = some (Query.mk "OR".data none q' q)) := by
  refine ⟨combine_queries_eq_leftLeanTree _ qs, combine_queries_eq_leftLeanTree _ qs,
    ?_, ?_, ?_, ?_⟩
  · rintro rfl
    exact ⟨rfl, rfl⟩
  · rintro q rfl
    exact ⟨rfl, rfl⟩
  · rintro front q q' rfl hfront
    rw [combine_queries_eq_leftLeanTree] at hfront ⊢
    exact leftLeanTree_snoc _ front q q' hfront
  · rintro front q q' rfl hfront
    rw [combine_queries_eq_leftLeanTree] at hfront ⊢
    exact leftLeanTree_snoc _ front q q' hfront

theorem match_group_combination_is_left_fold_witness :
    parse_filters demo_lookup demo_items = Except.ok [demo_q1, demo_q2] ∧
    combine_queries "AND".data [demo_q1, demo_q2] = leftLeanTree "AND".data [demo_q1, demo_q2] :=
  ⟨by rfl,
   (match_group_combination_is_left_fold demo_lookup demo_items [demo_q1, demo_q2]
     (by rfl)).1⟩

/-- C2: a filter on a text column whose quote-stripped value begins or ends
with `*` has each leading and each trailing run of `*` replaced by a single
`%` (applying the leading substitution first, as the source does), its
operator becomes `NOT LIKE` for `!=` and `LIKE` otherwise (in particular for
`=`), and if a `*` survives in the interior the parse fails with the
embedded-wildcard error (so the function prints an error and returns `None`
without issuing a query). -/
theorem wildcard_filters_become_like (lookup : Str → Option Str) (colRaw op0 val0 : Str)
    (hcol : lookup (strLower colRaw) = some "text".data)
    (hop : op0 = "=".data ∨ op0 = "==".data ∨ op0 = "!=".data)
    (hstar : (stripQuotes val0).head? = some '*' ∨ (stripQuotes val0).getLast? = some '*') :
    (('*' ∈ subTrailingStars (subLeadingStars (stripQuotes val0))) →
      parse_filter lookup colRaw op0 val0 = Except.error ParseErr.embeddedWildcard) ∧
    ('*' ∉ subTrailingStars (subLeadingStars (stripQuotes val0)) →
      parse_filter lookup colRaw op0 val0 = Except.ok (Query.mk
        (if op0 = "!=".data then "NOT LIKE".data else "LIKE".data) none
        (Query.mk "column".data (some (strLower colRaw)) Query.null Query.null)
        (Query.mk "quoted".data
          (some (subTrailingStars (subLeadingStars (stripQuotes val0))))
          Query.null Query.null))) := by
  have hw_nn : strLower (subTrailingStars (subLeadingStars (stripQuotes val0))) ≠ "null".data :=
    strLower_ne_null_of_mem (percent_mem_wildcard_value hstar) (by decide) (by decide)
  rcases hop with rfl | rfl | rfl <;> constructor <;> intro hw
  · exact parse_filter_eq_error_of_validate lookup colRaw "=".data val0 "text".data
      "=".data equality_operators _ hcol rfl rfl (by decide)
      ((validate_value_text_wildcard "=".data (stripQuotes val0) hstar).1 hw)
  · rw [parse_filter_eq_build_of_validate lookup colRaw "=".data val0 "text".data
      "=".data _ _ equality_operators hcol rfl rfl (by decide)
      ((validate_value_text_wildcard "=".data (stripQuotes val0) hstar).2 hw),
      build_filter_query_text_nonnull _ _ _ hw_nn]
  · exact parse_filter_eq_error_of_validate lookup colRaw "==".data val0 "text".data
      "=".data equality_operators _ hcol rfl rfl (by decide)
      ((validate_value_text_wildcard "=".data (stripQuotes val0) hstar).1 hw)
  · rw [parse_filter_eq_build_of_validate lookup colRaw "==".data val0 "text".data
      "=".data _ _ equality_operators hcol rfl rfl (by decide)
      ((validate_value_text_wildcard "=".data (stripQuotes val0) hstar).2 hw),
      build_filter_query_text_nonnull _ _ _ hw_nn]
    try rfl
  · exact parse_filter_eq_error_of_validate lookup colRaw "!=".data val0 "text".data
      "!=".data equality_operators _ hcol rfl rfl (by decide)
      ((validate_value_text_wildcard "!=".data (stripQuotes val0) hstar).1 hw)
  · rw [parse_filter_eq_build_of_validate lookup colRaw "!=".data val0 "text".data
      "!=".data _ _ equality_operators hcol rfl rfl (by decide)
      ((validate_value_text_wildcard "!=".data (stripQuotes val0) hstar).2 hw),
      build_filter_query_text_nonnull _ _ _ hw_nn]

theorem wildcard_filters_become_like_witness :
    ((stripQuotes "F*".data).getLast? = some '*') ∧
    parse_filter demo_lookup "sex".data "=".data "F*".data =
      Except.ok (Query.mk
        (if "=".data = "!=".data then "NOT LIKE".data else "LIKE".data) none
        (Query.mk "column".data (some (strLower "sex".data)) Query.null Query.null)
        (Query.mk "quoted".data
          (some (subTrailingStars (subLeadingStars (stripQuotes "F*".data))))
          Query.null Query.null)) :=
  ⟨by decide,
   (wildcard_filters_become_like demo_lookup "sex".data "=".data "F*".data (by rfl)
     (Or.inl rfl) (Or.inr (by decide))).2 (by decide)⟩

theorem build_filter_query_error_eq (dt c op v : Str) (e : ParseErr)
    (h : build_filter_query dt c op v = Except.error e) :
    e = ParseErr.nullNeedsEqualityOperator := by
  simp only [build_filter_query] at h
  split_ifs at h
  all_goals
    first
      | exact Except.noConfusion h
      | exact (Except.error.inj h).symm

theorem validate_value_error_ne (dt op v : Str) (e : ParseErr)
    (h : validate_value dt op v = Except.error e) :
    e ≠ ParseErr.unsupportedOperator ∧ e ≠ ParseErr.operatorNotUsableForType := by
  simp only [validate_value] at h
  split_ifs at h <;>
    first
      | exact Except.noConfusion h
      | (have he := (Except.error.inj h).symm
         subst he
         exact ⟨by decide, by decide⟩)
      | (cases hba : boolean_alias (strLower v) with
          | some b =>
            rw [hba] at h
            exact Except.noConfusion h
          | none =>
            rw [hba] at h
            have he := (Except.error.inj h).symm
            subst he
            exact ⟨by decide, by decide⟩)

theorem parse_filter_ne_operator_errors (lookup : Str → Option Str)
    (colRaw op0 val0 dt op1 : Str) (ops : List Str)
    (hcol : lookup (strLower colRaw) = some dt)
    (hres : resolve_operator op0 = Except.ok op1)
    (hops : operators_by_data_type dt = some ops)
    (hmem : op1 ∈ ops) :
    parse_filter lookup colRaw op0 val0 ≠ Except.error ParseErr.unsupportedOperator ∧
    parse_filter lookup colRaw op0 val0 ≠ Except.error ParseErr.operatorNotUsableForType := by
  cases hva : validate_value dt op1
      (if dt ≠ "text".data then stripPySpaces (stripQuotes val0) else stripQuotes val0) with
  | error e =>
    have hne := validate_value_error_ne dt op1 _ e hva
    rw [parse_filter_eq_error_of_validate lookup colRaw op0 val0 dt op1 ops e
      hcol hres hops hmem hva]
    exact ⟨fun hx => hne.1 (Except.error.inj hx), fun hx => hne.2 (Except.error.inj hx)⟩
  | ok p =>
    obtain ⟨op2, v3⟩ := p
    rw [parse_filter_eq_build_of_validate lookup colRaw op0 val0 dt op1 op2 v3 ops
      hcol hres hops hmem hva]
    cases hb : build_filter_query dt (strLower colRaw) op2 v3 with
    | error e2 =>
      have he2 := build_filter_query_error_eq dt (strLower colRaw) op2 v3 e2 hb
      subst he2
      exact ⟨fun hx => ParseErr.noConfusion (Except.error.inj hx),
        fun hx => ParseErr.noConfusion (Except.error.inj hx)⟩
    | ok q =>
      exact ⟨fun hx => Except.noConfusion hx, fun hx => Except.noConfusion hx⟩

/-- C3: a filter whose quote-stripped value is `null` (ignoring case) parses,
for operator `=` (or its alias `==`), to a node of node_type `IS`, and for
`!=` to node_type `IS NOT`, in both cases with the column node as left child
and an unquoted `NULL` node as right child; any other operator paired with a
NULL value makes the parse fail (the function prints an error and returns
`None`). -/
theorem null_filters_become_is_null (lookup : Str → Option Str)
    (colRaw op0 val0 dt : Str)
    (hcol : lookup (strLower colRaw) = some dt)
    (hdt : dt ∈ declared_data_types)
    (hnull : strLower (stripQuotes val0) = "null".data) :
    ((op0 = "=".data ∨ op0 = "==".data) →
      parse_filter lookup colRaw op0 val0 = Except.ok (Query.mk "IS".data none
        (Query.mk "column".data (some (strLower colRaw)) Query.null Query.null)
        (Query.mk "unquoted".data (some "NULL".data) Query.null Query.null))) ∧
    (op0 = "!=".data →
      parse_filter lookup colRaw op0 val0 = Except.ok (Query.mk "IS NOT".data none
        (Query.mk "column".data (some (strLower colRaw)) Query.null Query.null)
        (Query.mk "unquoted".data (some "NULL".data) Query.null Query.null))) ∧
    ((op0 ≠ "=".data ∧ op0 ≠ "==".data ∧ op0 ≠ "!=".data) →
      ∀ q : Query, parse_filter lookup colRaw op0 val0 ≠ Except.ok q) := by
  obtain ⟨ops, hops, hmemEq, hmemNe⟩ := operators_exist_of_declared hdt
  have hv2 : (if dt ≠ "text".data then stripPySpaces (stripQuotes val0)
      else stripQuotes val0) = stripQuotes val0 := by
    by_cases hdt2 : dt = "text".data
    · rw [if_neg (not_not_intro hdt2)]
    · rw [if_pos hdt2]
      exact stripPySpaces_eq_self (all_not_space_of_strLower_null hnull)
  have hv : ∀ op1 : Str, validate_value dt op1
      (if dt ≠ "text".data then stripPySpaces (stripQuotes val0) else stripQuotes val0) =
      Except.ok (op1, stripQuotes val0) := by
    intro op1
    rw [hv2]
    exact validate_value_null dt op1 _ hnull
  have key : ∀ op1 : Str, resolve_operator op0 = Except.ok op1 → op1 ∈ ops →
      parse_filter lookup colRaw op0 val0 =
        build_filter_query dt (strLower colRaw) op1 (stripQuotes val0) := by
    intro op1 hres hmem
    exact parse_filter_eq_build_of_validate lookup colRaw op0 val0 dt op1 op1
      (stripQuotes val0) ops hcol hres hops hmem (hv op1)
  refine ⟨?_, ?_, ?_⟩
  · rintro (rfl | rfl)
    · rw [key "=".data rfl hmemEq]
      exact (build_filter_query_null dt (strLower colRaw) "=".data _ hnull).1 rfl
    · rw [key "=".data rfl hmemEq]
      exact (build_filter_query_null dt (strLower colRaw) "=".data _ hnull).1 rfl
  · rintro rfl
    rw [key "!=".data rfl hmemNe]
    exact (build_filter_query_null dt (strLower colRaw) "!=".data _ hnull).2.1 rfl
  · rintro ⟨h1, h2, h3⟩ q hq
    by_cases hal : op0 ∈ allowed_operators
    · have hres := resolve_operator_ok_of_mem h2 hal
      by_cases hmem : op0 ∈ ops
      · rw [key op0 hres hmem,
          (build_filter_query_null dt (strLower colRaw) op0 _ hnull).2.2 h1 h3] at hq
        exact Except.noConfusion hq
      · rw [parse_filter_eq_of_not_mem lookup colRaw op0 val0 dt op0 ops
          hcol hres hops hmem] at hq
        exact Except.noConfusion hq
    · rw [parse_filter_eq_of_resolve_error lookup colRaw op0 val0 dt _ hcol
        (resolve_operator_error_of_not_mem h2 hal)] at hq
      exact Except.noConfusion hq

theorem null_filters_become_is_null_witness :
    (strLower (stripQuotes "NULL".data) = "null".data) ∧
    parse_filter demo_lookup "sex".data "=".data "NULL".data =
      Except.ok (Query.mk "IS".data none
        (Query.mk "column".data (some (strLower "sex".data)) Query.null Query.null)
        (Query.mk "unquoted".data (some "NULL".data) Query.null Query.null)) :=
  ⟨by decide,
   (null_filters_become_is_null demo_lookup "sex".data "=".data "NULL".data "text".data
     (by rfl) (by decide) (by decide)).1 (Or.inl rfl)⟩

/-- C4: an order-comparison operator (`<`, `<=`, `>`, `>=`) on a column of
declared type `text` or `boolean` is rejected with the
operator-not-usable-for-type error (the function prints an error and returns
`None` before issuing a query); `=` and `!=` (and the alias `==`) are never
rejected by either operator check for any declared data type; and whether
the type-compatibility rejection fires is determined solely by the resolved
operator and the column's declared data type (it holds exactly when the
resolved operator is outside the type's `operators_by_data_type` entry). -/
theorem operator_legality_by_data_type (lookup : Str → Option Str)
    (colRaw op0 val0 dt : Str)
    (hcol : lookup (strLower colRaw) = some dt)
    (hdt : dt ∈ declared_data_types) :
    ((dt = "text".data ∨ dt = "boolean".data) → op0 ∈ inequality_operators →
      parse_filter lookup colRaw op0 val0 = Except.error ParseErr.operatorNotUsableForType) ∧
    ((op0 = "=".data ∨ op0 = "==".data ∨ op0 = "!=".data) →
      parse_filter lookup colRaw op0 val0 ≠ Except.error ParseErr.unsupportedOperator ∧
      parse_filter lookup colRaw op0 val0 ≠ Except.error ParseErr.operatorNotUsableForType) ∧
    (∀ op1 : Str, resolve_operator op0 = Except.ok op1 →
      (parse_filter lookup colRaw op0 val0 = Except.error ParseErr.operatorNotUsableForType ↔
        op1 ∉ (operators_by_data_type dt).getD [])) := by
  obtain ⟨ops, hops, hmemEq, hmemNe⟩ := operators_exist_of_declared hdt
  refine ⟨?_, ?_, ?_⟩
  · intro hdt2 hop
    simp only [inequality_operators, List.mem_cons, List.mem_singleton,
      List.not_mem_nil, or_false] at hop
    rcases hdt2 with rfl | rfl <;> rcases hop with rfl | rfl | rfl | rfl <;>
      exact parse_filter_eq_of_not_mem lookup colRaw _ val0 _ _ equality_operators hcol
        (resolve_operator_ok_of_mem (by decide) (by decide)) rfl (by decide)
  · rintro (rfl | rfl | rfl)
    · exact parse_filter_ne_operator_errors lookup colRaw _ val0 dt "=".data ops
        hcol rfl hops hmemEq
    · exact parse_filter_ne_operator_errors lookup colRaw _ val0 dt "=".data ops
        hcol rfl hops hmemEq
    · exact parse_filter_ne_operator_errors lookup colRaw _ val0 dt "!=".data ops
        hcol rfl hops hmemNe
  · intro op1 hres
    rw [hops, Option.getD_some]
    constructor
    · intro hp
      by_contra hmem
      exact (parse_filter_ne_operator_errors lookup colRaw op0 val0 dt op1 ops
        hcol hres hops hmem).2 hp
    · intro hnm
      exact parse_filter_eq_of_not_mem lookup colRaw op0 val0 dt op1 ops hcol hres hops hnm

theorem operator_legality_by_data_type_witness :
    (demo_lookup (strLower "sex".data) = some "text".data) ∧
    parse_filter demo_lookup "sex".data "<".data "x".data =
      Except.error ParseErr.operatorNotUsableForType :=
  ⟨by rfl,
   (operator_legality_by_data_type demo_lookup "sex".data "<".data "x".data "text".data
     (by rfl) (by decide)).1 (Or.inl rfl) (by decide)⟩

/-- C9: the operator token `==` is accepted as an alias for `=`: a filter
whose OP field is `==` parses to exactly the same query node (and produces
exactly the same overall result) as the same filter with OP field `=`. -/
theorem double_equals_is_alias_for_equals (lookup : Str → Option Str) (colRaw val0 : Str) :
    parse_filter lookup colRaw "==".data val0 = parse_filter lookup colRaw "=".data val0 :=
  parse_filter_double_equals lookup colRaw val0

/-- C5: when at least one filter group is non-empty, the final query built by
`summary_counts()` and `fetch_rows()` is the AND-join of the non-empty
combined group trees: all three present gives
`AND( AND( match_all, match_any ), data_source )`, exactly two present give a
single AND node over those two trees, and exactly one present gives that
group's tree alone. -/
theorem final_query_is_and_join_of_groups
    (lookup : Str → Option Str) (table : Str)
    (match_all match_any : List (Str × Str × Str)) (data_source : List Str)
    (qsAll qsAny : List Query)
    (hA : parse_filters lookup match_all = Except.ok qsAll)
    (hO : parse_filters lookup match_any = Except.ok qsAny)
    (hds : (data_source.map normalize_data_source).all
      (fun item => decide (item ∈ allowed_data_source_values)) = true) :
    build_query_sc lookup table match_all match_any data_source =
      Except.ok (build_final_query table
        (combine_queries "AND".data qsAll)
        (combine_queries "OR".data qsAny)
        (combine_queries "AND".data
          ((data_source.map normalize_data_source).map (data_source_query_sc table)))) ∧
    build_query_fr lookup table match_all match_any data_source =
      Except.ok (build_final_query table
        (combine_queries "AND".data qsAll)
        (combine_queries "OR".data qsAny)
        (combine_queries "AND".data
          ((data_source.map normalize_data_source).map (data_source_query_fr table)))) ∧
    (∀ qa : Query, build_final_query table (some qa) none none = qa) ∧
    (∀ qo : Query, build_final_query table none (some qo) none = qo) ∧
    (∀ qd : Query, build_final_query table none none (some qd) = qd) ∧
    (∀ qa qo : Query, build_final_query table (some qa) (some qo) none =
      Query.mk "AND".data none qa qo) ∧
    (∀ qa qd : Query, build_final_query table (some qa) none (some qd) =
      Query.mk "AND".data none qd qa) ∧
    (∀ qo qd : Query, build_final_query table none (some qo) (some qd) =
      Query.mk "AND".data none qd qo) ∧
    (∀ qa qo qd : Query, build_final_query table (some qa) (some qo) (some qd) =
      Query.mk "AND".data none (Query.mk "AND".data none qa qo) qd) := by
  refine ⟨?_, ?_, fun _ => rfl, fun _ => rfl, fun _ => rfl, fun _ _ => rfl,
    fun _ _ => rfl, fun _ _ => rfl, fun _ _ _ => rfl⟩
  · unfold build_query_sc
    rw [if_pos hds, hA, hO]
  · unfold build_query_fr
    rw [if_pos hds, hA, hO]

theorem final_query_is_and_join_of_groups_witness :
    parse_filters demo_lookup demo_items = Except.ok [demo_q1, demo_q2] ∧
    build_query_sc demo_lookup "subject".data demo_items [] ["GDC".data] =
      Except.ok (build_final_query "subject".data
        (combine_queries "AND".data [demo_q1, demo_q2])
        (combine_queries "OR".data [])
        (combine_queries "AND".data
          ((["GDC".data].map normalize_data_source).map (data_source_query_sc "subject".data)))) :=
  ⟨by rfl,
   (final_query_is_and_join_of_groups demo_lookup "subject".data demo_items [] ["GDC".data]
     [demo_q1, demo_q2] [] (by rfl) (by rfl) (by rfl)).1⟩

/-- C6: with all three filter groups empty, the query sent to the API is the
always-true predicate: `{table}_id IS NOT NULL` for every table other than
`somatic_mutation`, and `hotspot IS NULL OR hotspot IS NOT NULL` for
`somatic_mutation`. -/
theorem empty_filters_give_match_everything_query
    (lookup : Str → Option Str) (table : Str) :
    build_query_sc lookup table [] [] [] = Except.ok (match_everything_query table) ∧
    build_query_fr lookup table [] [] [] = Except.ok (match_everything_query table) ∧
    (table ≠ "somatic_mutation".data →
      match_everything_query table =
        Query.mk "IS NOT".data none
          (Query.mk "column".data (some (table ++ "_id".data)) Query.null Query.null)
          (Query.mk "unquoted".data (some "NULL".data) Query.null Query.null)) ∧
    match_everything_query "somatic_mutation".data =
      Query.mk "OR".data none
        (Query.mk "IS".data none
          (Query.mk "column".data (some "hotspot".data) Query.null Query.null)
          (Query.mk "unquoted".data (some "NULL".data) Query.null Query.null))
        (Query.mk "IS NOT".data none
          (Query.mk "column".data (some "hotspot".data) Query.null Query.null)
          (Query.mk "unquoted".data (some "NULL".data) Query.null Query.null)) := by
  refine ⟨rfl, rfl, ?_, ?_⟩
  · intro h
    unfold match_everything_query
    rw [if_neg h]
  · unfold match_everything_query
    rw [if_pos rfl]

theorem empty_filters_give_match_everything_query_witness :
    ("subject".data ≠ "somatic_mutation".data) ∧
    match_everything_query "subject".data =
      Query.mk "IS NOT".data none
        (Query.mk "column".data (some ("subject".data ++ "_id".data)) Query.null Query.null)
        (Query.mk "unquoted".data (some "NULL".data) Query.null Query.null) :=
  ⟨by decide,
   (empty_filters_give_match_everything_query demo_lookup "subject".data).2.2.1 (by decide)⟩

/-- The decoded-model handler agrees with the faithful raw handler on every
raw outcome whose body decodes: `handle_api_result` is the restriction of
`handle_api_result_raw` away from the raising path. -/
theorem handle_api_result_raw_eq_of_decodes {α : Type} (decode : Str → Option Str)
    (fname : Str) (rawOut : RawApiOutcome α) (out : ApiOutcome α)
    (h : rawOut.decodeWith decode = some out) :
    handle_api_result_raw decode fname rawOut =
      match handle_api_result fname out with
      | (some a, _) => HandlerResult.proceed a
      | (none, lines) => HandlerResult.returned lines := by
  cases rawOut with
  | success a =>
    simp only [RawApiOutcome.decodeWith, Option.some.injEq] at h
    subst h
    rfl
  | apiException body etext =>
    cases body with
    | none =>
      simp only [RawApiOutcome.decodeWith, Option.some.injEq] at h
      subst h
      rfl
    | some b =>
      cases hd : decode b with
      | none =>
        rw [RawApiOutcome.decodeWith, hd] at h
        cases h
      | some m =>
        rw [RawApiOutcome.decodeWith, hd] at h
        simp only [Option.map_some', Option.some.injEq] at h
        subst h
        simp only [handle_api_result_raw, hd, handle_api_result]
  | connectionException t =>
    simp only [RawApiOutcome.decodeWith, Option.some.injEq] at h
    subst h
    by_cases hi : "urllib3.exceptions.MaxRetryError".data <:+: t
    · simp only [handle_api_result_raw, handle_api_result, if_pos hi]
    · simp only [handle_api_result_raw, handle_api_result, if_neg hi]

/-- Shape of the faithful handler on a failed call: when the body (if any)
decodes, it prints exactly one line and returns; an undecodable body makes
the handler raise. -/
theorem handle_api_result_raw_failure {α : Type} (decode : Str → Option Str)
    (fname : Str) (out : RawApiOutcome α)
    (hfail : ∀ a : α, out ≠ RawApiOutcome.success a) :
    ((∀ body etext : Str, out = RawApiOutcome.apiException (some body) etext →
        decode body ≠ none) →
      ∃ lines : List StderrLine, lines.length = 1 ∧
        handle_api_result_raw decode fname out = HandlerResult.returned lines) ∧
    (∀ body etext : Str, out = RawApiOutcome.apiException (some body) etext →
      decode body = none →
        handle_api_result_raw decode fname out = HandlerResult.raised) := by
  cases out with
  | success a => exact absurd rfl (hfail a)
  | apiException body etext =>
    cases body with
    | none =>
      refine ⟨fun _ => ⟨[ StderrLine.apiError fname etext ], rfl, rfl⟩, ?_⟩
      intro b e heq
      cases heq
    | some b =>
      cases hd : decode b with
      | none =>
        refine ⟨fun hdec => absurd hd (hdec b etext rfl), ?_⟩
        intro b2 e2 heq hdn
        simp only [handle_api_result_raw, hd]
      | some m =>
        refine ⟨fun _ => ⟨[ StderrLine.apiError fname m ], rfl, ?_⟩, ?_⟩
        · simp only [handle_api_result_raw, hd]
        · intro b2 e2 heq hdn
          cases heq
          rw [hd] at hdn
          cases hdn
  | connectionException t =>
    refine ⟨fun _ => ?_, ?_⟩
    · by_cases hi : "urllib3.exceptions.MaxRetryError".data <:+: t
      · exact ⟨[ StderrLine.cannotConnect fname ], rfl,
          by simp only [handle_api_result_raw, if_pos hi]⟩
      · exact ⟨[ StderrLine.connectOther fname t ], rfl,
          by simp only [handle_api_result_raw, if_neg hi]⟩
    · intro b e heq
      cases heq

/-- C7 counterexample: an `ApiException` whose body does not JSON-decode to a
`message` (for instance an HTML error page from a gateway) makes the source
handler in `columns()` raise — `json.loads( e.body )['message']` itself
throws — so on this concrete input the operation neither prints an error
line nor returns `None`, refuting the claim as stated. -/
theorem api_failure_claim_counterexample :
    columns_handle_api_result_raw undecodable_json_body_decode
      (RawApiOutcome.apiException (some "an html error page from the gateway".data)
        "502 Bad Gateway".data : RawApiOutcome Nat) = HandlerResult.raised :=
  rfl

/-- C7, amended: every API-calling operation (`columns()`,
`column_values()`, `summary_counts()`, `fetch_rows()`) reacts to a failed
API call without retrying; whenever the `ApiException` body — if there is
one — JSON-decodes to a `message`, the operation prints exactly one error
line to stderr and returns `None`; when the body fails to decode, the
decoding exception itself escapes to the caller, with nothing printed and no
`None` returned. -/
theorem api_failure_prints_once_unless_body_undecodable {α : Type}
    (decode : Str → Option Str) (out : RawApiOutcome α)
    (hfail : ∀ a : α, out ≠ RawApiOutcome.success a) :
    ((∀ body etext : Str, out = RawApiOutcome.apiException (some body) etext →
        decode body ≠ none) →
      (∃ lines : List StderrLine, lines.length = 1 ∧
        columns_handle_api_result_raw decode out = HandlerResult.returned lines) ∧
      (∃ lines : List StderrLine, lines.length = 1 ∧
        column_values_handle_api_result_raw decode out = HandlerResult.returned lines) ∧
      (∃ lines : List StderrLine, lines.length = 1 ∧
        summary_counts_handle_api_result_raw decode out = HandlerResult.returned lines) ∧
      (∃ lines : List StderrLine, lines.length = 1 ∧
        fetch_rows_handle_api_result_raw decode out = HandlerResult.returned lines)) ∧
    (∀ body etext : Str, out = RawApiOutcome.apiException (some body) etext →
      decode body = none →
        columns_handle_api_result_raw decode out = HandlerResult.raised ∧
        column_values_handle_api_result_raw decode out = HandlerResult.raised ∧
        summary_counts_handle_api_result_raw decode out = HandlerResult.raised ∧
        fetch_rows_handle_api_result_raw decode out = HandlerResult.raised) := by
  constructor
  · intro hdec
    exact ⟨(handle_api_result_raw_failure decode "columns".data out hfail).1 hdec,
      (handle_api_result_raw_failure decode "column_values".data out hfail).1 hdec,
      (handle_api_result_raw_failure decode "summary_counts".data out hfail).1 hdec,
      (handle_api_result_raw_failure decode "fetch_rows".data out hfail).1 hdec⟩
  · intro body etext heq hdn
    exact ⟨(handle_api_result_raw_failure decode "columns".data out hfail).2 body etext heq hdn,
      (handle_api_result_raw_failure decode "column_values".data out hfail).2 body etext heq hdn,
      (handle_api_result_raw_failure decode "summary_counts".data out hfail).2 body etext heq hdn,
      (handle_api_result_raw_failure decode "fetch_rows".data out hfail).2 body etext heq hdn⟩

theorem api_failure_prints_once_unless_body_undecodable_witness :
    (∀ a : Nat,
      (RawApiOutcome.apiException (some "service failed".data) "HTTP 500".data
        : RawApiOutcome Nat) ≠ RawApiOutcome.success a) ∧
    (∃ lines : List StderrLine, lines.length = 1 ∧
      columns_handle_api_result_raw demo_decode
        (RawApiOutcome.apiException (some "service failed".data) "HTTP 500".data
          : RawApiOutcome Nat) = HandlerResult.returned lines) :=
  ⟨fun _ h => RawApiOutcome.noConfusion h,
   ((api_failure_prints_once_unless_body_undecodable demo_decode
     (RawApiOutcome.apiException (some "service failed".data) "HTTP 500".data
       : RawApiOutcome Nat)
     (fun _ h => RawApiOutcome.noConfusion h)).1
     (fun _ _ _ hno => Option.noConfusion hno)).1⟩

/-- C8: `summary_counts()` called on table `somatic_mutation` passes the
table-name validation (the table is served by the `query_selector`
dictionary) but, whatever the API would answer, always prints the temporary
apology and returns `None` before any results are retrieved. -/
theorem summary_counts_somatic_mutation_always_aborts {α : Type}
    (valid_tables : List Str) (out : ApiOutcome α)
    (hvalid : "somatic_mutation".data ∈ valid_tables) :
    table_name_is_valid valid_tables "somatic_mutation".data = true ∧
    summary_counts_fetch_phase "somatic_mutation".data out =
      (none, [ StderrLine.somaticMutationCountsUnavailable ]) := by
  constructor
  · exact decide_eq_true hvalid
  · unfold summary_counts_fetch_phase
    rw [if_pos rfl]

theorem summary_counts_somatic_mutation_always_aborts_witness :
    ("somatic_mutation".data ∈ summary_counts_query_selector_tables) ∧
    summary_counts_fetch_phase "somatic_mutation".data (ApiOutcome.success (42 : Nat)) =
      (none, [ StderrLine.somaticMutationCountsUnavailable ]) :=
  ⟨by decide,
   (summary_counts_somatic_mutation_always_aborts summary_counts_query_selector_tables
     (ApiOutcome.success (42 : Nat)) (by decide)).2⟩

/-- C10: a successful `count_only=True` call of `fetch_rows()` returns a
dictionary with exactly the two keys `distinct_{table}_rows` and
`total_result_rows` (distinct keys, integer values), and whenever no
extra-column SELECT query was built the two values are equal. -/
theorem count_only_returns_two_key_dict (table : Str) (qx : Option Query)
    (c1 c2 : ApiOutcome Nat) (d : List (Str × Nat))
    (h : fetch_rows_count_only_result table qx c1 c2 = some d) :
    (∃ dc tc : Nat,
      d = [ ("distinct_".data ++ table ++ "_rows".data, dc),
            ("total_result_rows".data, tc) ]) ∧
    ("distinct_".data ++ table ++ "_rows".data ≠ "total_result_rows".data) ∧
    (qx = none → ∃ n : Nat,
      d = [ ("distinct_".data ++ table ++ "_rows".data, n),
            ("total_result_rows".data, n) ]) := by
  have hkey : "distinct_".data ++ table ++ "_rows".data ≠ "total_result_rows".data := by
    intro heq
    have hh := congrArg List.head? heq
    rw [show List.head? ("distinct_".data ++ table ++ "_rows".data) = some 'd' from rfl,
      show List.head? ("total_result_rows".data : Str) = some 't' from rfl] at hh
    exact absurd hh (by decide)
  cases qx with
  | none =>
    cases c2 with
    | success n =>
      simp only [fetch_rows_count_only_result, Option.some.injEq] at h
      exact ⟨⟨n, n, h.symm⟩, hkey, fun _ => ⟨n, h.symm⟩⟩
    | apiException body etext => simp [fetch_rows_count_only_result] at h
    | connectionException ttext => simp [fetch_rows_count_only_result] at h
  | some q =>
    cases c1 with
    | success n1 =>
      cases c2 with
      | success n2 =>
        simp only [fetch_rows_count_only_result, Option.some.injEq] at h
        exact ⟨⟨n1, n2, h.symm⟩, hkey, fun hq => by cases hq⟩
      | apiException body etext => simp [fetch_rows_count_only_result] at h
      | connectionException ttext => simp [fetch_rows_count_only_result] at h
    | apiException body etext =>
      cases c2 <;> simp [fetch_rows_count_only_result] at h
    | connectionException ttext =>
      cases c2 <;> simp [fetch_rows_count_only_result] at h

theorem count_only_returns_two_key_dict_witness :
    fetch_rows_count_only_result "subject".data none
      (ApiOutcome.success 0) (ApiOutcome.success 7) =
      some [ ("distinct_".data ++ "subject".data ++ "_rows".data, 7),
             ("total_result_rows".data, 7) ] ∧
    (∃ n : Nat,
      [ (("distinct_".data ++ "subject".data ++ "_rows".data : Str), (7 : Nat)),
        ("total_result_rows".data, 7) ] =
      [ ("distinct_".data ++ "subject".data ++ "_rows".data, n),
        ("total_result_rows".data, n) ]) :=
  ⟨by rfl,
   (count_only_returns_two_key_dict "subject".data none
     (ApiOutcome.success 0) (ApiOutcome.success 7)
     [ ("distinct_".data ++ "subject".data ++ "_rows".data, 7),
       ("total_result_rows".data, 7) ] (by rfl)).2.2 rfl⟩

end Cda
